import Mathlib

/-!
# Ride Dispatch System — shallow embedding and verification

This file embeds the core of the ride-dispatch backend (the data model in
`models.py`, the scoring / movement / dispatch / tick logic in
`services/dispatch.py`, and the manual-reject operation in
`routers/requests.py`) as executable Lean definitions, and proves or refutes
the specification's claims about them.

Modelling conventions:
* Python `float` coordinates are modelled as `ℚ` (all arithmetic used by the
  code is exact on rationals).
* The global dicts `drivers` / `riders` / `requests` are modelled as lists in
  insertion order (Python dicts iterate in insertion order); lookup by id is
  `List.find?`, in-place field mutation is an id-directed `List.map`.
* Python truthiness of an `Optional[int]` (`if driver.assigned_request_id:`)
  is `isTruthy`: `None` and `0` are falsy.
* The hidden random source of `simulate_driver_rejection` is an injected
  oracle `Nat → Bool` consumed at an explicit index (`true` = reject); a
  rejection rate of `0` corresponds to the constantly-false oracle and a rate
  of `1` to the constantly-true oracle.
* The `while attempts_made < max_attempts` retry loop is structural recursion
  on the fuel `budget = max_attempts - attempts_made`, which the caller
  initialises to `max_attempts`.  `offer_loop` additionally returns the list
  of drivers an offer was simulated to (a ghost trace; the state updates are
  exactly those of the source).
-/

namespace RideDispatch

/-- `DriverStatus` from `models.py`. -/
inductive DriverStatus where
  | available
  | onTrip
  | offline
deriving DecidableEq, Repr

/-- `RequestStatus` from `models.py`. -/
inductive RequestStatus where
  | waiting
  | assigned
  | rejected
  | completed
  | failed
deriving DecidableEq, Repr

/-- `Driver` internal data model from `models.py`. -/
structure Driver where
  id : Nat
  x : ℚ
  y : ℚ
  status : DriverStatus
  assigned_request_id : Option Nat := none
deriving DecidableEq, Repr

/-- `Rider` internal data model from `models.py`. -/
structure Rider where
  id : Nat
  pickup_x : ℚ
  pickup_y : ℚ
  dropoff_x : ℚ
  dropoff_y : ℚ
deriving DecidableEq, Repr

/-- `RideRequest` internal data model from `models.py`. -/
structure RideRequest where
  id : Nat
  rider_id : Nat
  pickup_x : ℚ
  pickup_y : ℚ
  dropoff_x : ℚ
  dropoff_y : ℚ
  status : RequestStatus
  attempts : Nat := 0
  assigned_driver_id : Option Nat := none
  picked_up : Bool := false
deriving DecidableEq, Repr

/-- The shared world state: the module-level dicts `drivers`, `riders`,
`requests` and the `current_time` counter of `services/dispatch.py`. -/
structure World where
  drivers : List Driver
  riders : List Rider
  requests : List RideRequest
  current_time : Nat
deriving DecidableEq, Repr

/-- Dispatch configuration constants (`DISPATCH_ALPHA`, `DISPATCH_BETA` from
`config.py`); the movement speed is passed separately where used. -/
structure Config where
  alpha : ℚ
  beta : ℚ
deriving DecidableEq, Repr

/-- One entry of the `results` list returned by `_dispatch_ride_internal`. -/
structure ReqResult where
  request_id : Nat
  assigned_driver_id : Option Nat
  attempts : Nat
  status : String
deriving DecidableEq, Repr

/-- One entry of the `updated_requests` list returned by `_tick_internal`. -/
structure Event where
  driver_id : Nat
  request_id : Nat
  event : String
deriving DecidableEq, Repr

/-- Python's built-in `abs` on exact numbers (an `if`-based definition so
that concrete runs reduce inside the kernel; equal to `|·|`, see
`pyAbs_eq_abs`). -/
def pyAbs (q : ℚ) : ℚ := if q < 0 then -q else q

/-- Python's built-in `min` of two numbers (returns the first on ties). -/
def pyMin (a b : ℚ) : ℚ := if a ≤ b then a else b

/-- Python's built-in `max` of two numbers (returns the first on ties). -/
def pyMax (a b : ℚ) : ℚ := if b ≤ a then a else b

/-- Python truthiness of an `Optional[int]`: `None` and `0` are falsy. -/
def isTruthy : Option Nat → Bool
  | none => false
  | some n => n != 0

/-- `drivers.get(id)` / `drivers[id]`-style lookup on the world. -/
def getDriver (w : World) (i : Nat) : Option Driver :=
  w.drivers.find? (fun d => d.id = i)

/-- `requests.get(id)`-style lookup on the world. -/
def getRequest (w : World) (i : Nat) : Option RideRequest :=
  w.requests.find? (fun r => r.id = i)

/-- In-place mutation of the fields of the driver with id `i`. -/
def updateDriver (w : World) (i : Nat) (f : Driver → Driver) : World :=
  { w with drivers := w.drivers.map (fun d => if d.id = i then f d else d) }

/-- In-place mutation of the fields of the request with id `i`. -/
def updateRequest (w : World) (i : Nat) (f : RideRequest → RideRequest) : World :=
  { w with requests := w.requests.map (fun r => if r.id = i then f r else r) }

/-- `calculate_manhattan_distance` from `services/dispatch.py`. -/
def calculate_manhattan_distance (x1 y1 x2 y2 : ℚ) : ℚ :=
  pyAbs (x1 - x2) + pyAbs (y1 - y2)

/-- `calculate_driver_score` from `services/dispatch.py` (lower is better). -/
def calculate_driver_score (cfg : Config) (driver : Driver) (request : RideRequest) : ℚ :=
  let eta_to_pickup := calculate_manhattan_distance driver.x driver.y request.pickup_x request.pickup_y
  let num_assigned : ℚ := if isTruthy driver.assigned_request_id then 1 else 0
  cfg.alpha * eta_to_pickup + cfg.beta * num_assigned

/-- One step of the best-score selection loop of the source (`best_driver` /
`best_score` accumulator, strict `<` so ties keep the first-encountered). -/
def pickBetter (cfg : Config) (request : RideRequest) (acc : Option Driver) (driver : Driver) :
    Option Driver :=
  match acc with
  | none => some driver
  | some best =>
      if calculate_driver_score cfg driver request < calculate_driver_score cfg best request then
        some driver
      else
        some best

/-- The `best_driver = None; best_score = inf; for driver in ...` selection
loop shared by `_dispatch_ride_internal` and `find_best_driver`. -/
def bestByScore (cfg : Config) (request : RideRequest) (ds : List Driver) : Option Driver :=
  ds.foldl (pickBetter cfg request) none

/-- Resolve a list of driver ids against the current world (the Python lists
hold shared mutable driver objects; we model them by id and re-read the
current state at use time). -/
def resolveDrivers (w : World) (ids : List Nat) : List Driver :=
  ids.filterMap (getDriver w)

/-- `find_best_driver` from `services/dispatch.py`. -/
def find_best_driver (cfg : Config) (w : World) (request : RideRequest) (exclude : List Nat) :
    Option Driver :=
  let available_drivers :=
    w.drivers.filter (fun d => d.status = DriverStatus.available ∧ d.id ∉ exclude)
  bestByScore cfg request available_drivers

/-- `move_towards_target` from `services/dispatch.py`: one axis-sequential
step of at most `speed` on each axis, clamped at the target. -/
def move_towards_target (speed : ℚ) (current_x current_y target_x target_y : ℚ) : ℚ × ℚ :=
  let new_x :=
    if current_x < target_x then pyMin (current_x + speed) target_x
    else if current_x > target_x then pyMax (current_x - speed) target_x
    else current_x
  let new_y :=
    if current_y < target_y then pyMin (current_y + speed) target_y
    else if current_y > target_y then pyMax (current_y - speed) target_y
    else current_y
  (new_x, new_y)

/-- The outcome of one request's retry loop in `_dispatch_ride_internal`:
the world after the loop, the next oracle index, the final `attempts_made`,
the appended result entry (if any), and the ghost trace of drivers an offer
was simulated to. -/
structure OfferOutcome where
  world : World
  oidx : Nat
  attempts_made : Nat
  result : Option ReqResult
  offered : List Nat
deriving Repr

/-- The `while attempts_made < max_attempts` retry loop of
`_dispatch_ride_internal`, as structural recursion on the fuel
`budget = max_attempts - attempts_made` (the caller passes
`budget = max_attempts`, `attempts_made = 0`).  `oracle k = true` is one draw
of `simulate_driver_rejection()`.  On reject the current best driver is
removed from this request's private candidate list and the best remaining
candidate is recomputed; on accept the request and driver are linked exactly
as in the source (the source's final `available_drivers.remove(best_driver)`
before `break` has no further effect and is not modelled; the ghost `offered`
trace records each simulated offer instead). -/
def offer_loop (cfg : Config) (oracle : Nat → Bool) (request : RideRequest) :
    Nat → World → Nat → Driver → List Nat → Nat → OfferOutcome
  | 0, w, k, _best, _cands, attempts_made =>
      ⟨w, k, attempts_made, none, []⟩
  | budget + 1, w, k, best_driver, available_drivers, attempts_made =>
      if oracle k then
        -- Driver rejects, remove from available list, try next
        let available_drivers' := available_drivers.erase best_driver.id
        let attempts_made' := attempts_made + 1
        -- Recalculate best driver
        match bestByScore cfg request (resolveDrivers w available_drivers') with
        | some best' =>
            let rest := offer_loop cfg oracle request budget w (k + 1) best' available_drivers' attempts_made'
            { rest with offered := best_driver.id :: rest.offered }
        | none =>
            ⟨w, k + 1, attempts_made', none, [best_driver.id]⟩
      else
        -- Driver accepts: update request status, then driver status
        let w1 := updateRequest w request.id (fun r =>
          { r with status := RequestStatus.assigned,
                   assigned_driver_id := some best_driver.id,
                   attempts := attempts_made })
        let w2 := updateDriver w1 best_driver.id (fun d =>
          { d with status := DriverStatus.onTrip,
                   assigned_request_id := some request.id })
        ⟨w2, k + 1, attempts_made,
          some { request_id := request.id,
                 assigned_driver_id := some best_driver.id,
                 attempts := attempts_made,
                 status := "assigned" },
          [best_driver.id]⟩

/-- The per-request body of `_dispatch_ride_internal`'s `for request in
waiting_requests` loop: private copy of the call-start candidate list, best
driver selection, the retry loop, and the all-rejected failure case. -/
def process_request (cfg : Config) (oracle : Nat → Bool) (w : World) (k : Nat)
    (avail_ids : List Nat) (request : RideRequest) : World × Nat × List ReqResult :=
  -- Create independent copy of available drivers for each request
  let available_drivers := avail_ids
  -- Find best driver for this request
  match bestByScore cfg request (resolveDrivers w available_drivers) with
  | none => (w, k, [])
  | some best_driver =>
      let max_attempts := available_drivers.length
      let oc := offer_loop cfg oracle request max_attempts w k best_driver available_drivers 0
      match oc.result with
      | some res => (oc.world, oc.oidx, [res])
      | none =>
          -- If all drivers reject
          if oc.attempts_made ≥ max_attempts then
            let w' := updateRequest oc.world request.id (fun r =>
              { r with status := RequestStatus.failed, attempts := oc.attempts_made })
            (w', oc.oidx,
             [{ request_id := request.id,
                assigned_driver_id := none,
                attempts := oc.attempts_made,
                status := "failed" }])
          else (oc.world, oc.oidx, [])

/-- One step of the fold over `waiting_requests`. -/
def dispatch_step (cfg : Config) (oracle : Nat → Bool) (avail_ids : List Nat)
    (acc : World × Nat × List ReqResult) (request : RideRequest) :
    World × Nat × List ReqResult :=
  match acc with
  | (w, k, results) =>
      match process_request cfg oracle w k avail_ids request with
      | (w', k', r) => (w', k', results ++ r)

/-- `_dispatch_ride_internal` from `services/dispatch.py`.  `k` is the index
into the rejection oracle; the function returns the final world, the next
oracle index, and the `results` list. -/
def dispatch_ride_internal (cfg : Config) (oracle : Nat → Bool) (w : World) (k : Nat) :
    World × Nat × List ReqResult :=
  -- Get all waiting requests
  let waiting_requests := w.requests.filter (fun r => r.status = RequestStatus.waiting)
  if waiting_requests.isEmpty then (w, k, [])
  else
    -- Get all available drivers - capture once before looping
    let all_available_drivers := w.drivers.filter (fun d => d.status = DriverStatus.available)
    if all_available_drivers.isEmpty then (w, k, [])
    else
      let avail_ids := all_available_drivers.map (fun d => d.id)
      waiting_requests.foldl (dispatch_step cfg oracle avail_ids) (w, k, [])

/-- The per-driver body of `_tick_internal`'s loop over `drivers.values()`:
the guard `driver.status == ON_TRIP and driver.assigned_request_id`, the
stale-reference skip, and the pickup/dropoff state machine. -/
def tick_driver (speed : ℚ) (w : World) (did : Nat) : World × List Event :=
  match getDriver w did with
  | none => (w, [])
  | some driver =>
      if driver.status = DriverStatus.onTrip ∧ isTruthy driver.assigned_request_id = true then
        match driver.assigned_request_id with
        | none => (w, [])
        | some rid =>
            match getRequest w rid with
            | none => (w, [])  -- stale back-reference: skip
            | some request =>
                if request.picked_up = false then
                  let distance_to_pickup :=
                    calculate_manhattan_distance driver.x driver.y request.pickup_x request.pickup_y
                  if distance_to_pickup > 0 then
                    -- Move towards pickup point
                    let p := move_towards_target speed driver.x driver.y request.pickup_x request.pickup_y
                    let w1 := updateDriver w driver.id (fun d => { d with x := p.1, y := p.2 })
                    -- Check if reached pickup point
                    if calculate_manhattan_distance p.1 p.2 request.pickup_x request.pickup_y = 0 then
                      (updateRequest w1 request.id (fun r => { r with picked_up := true }),
                       [{ driver_id := driver.id, request_id := request.id, event := "reached_pickup" }])
                    else (w1, [])
                  else if distance_to_pickup = 0 then
                    -- Already at pickup point (initially at pickup point)
                    (updateRequest w request.id (fun r => { r with picked_up := true }),
                     [{ driver_id := driver.id, request_id := request.id, event := "reached_pickup" }])
                  else (w, [])
                else
                  let distance_to_dropoff :=
                    calculate_manhattan_distance driver.x driver.y request.dropoff_x request.dropoff_y
                  if distance_to_dropoff > 0 then
                    -- Move towards destination
                    let p := move_towards_target speed driver.x driver.y request.dropoff_x request.dropoff_y
                    let w1 := updateDriver w driver.id (fun d => { d with x := p.1, y := p.2 })
                    -- Check if reached destination
                    if calculate_manhattan_distance p.1 p.2 request.dropoff_x request.dropoff_y = 0 then
                      -- Complete trip
                      let w2 := updateRequest w1 request.id (fun r =>
                        { r with status := RequestStatus.completed, picked_up := false })
                      let w3 := updateDriver w2 driver.id (fun d =>
                        { d with status := DriverStatus.available, assigned_request_id := none })
                      (w3, [{ driver_id := driver.id, request_id := request.id, event := "completed" }])
                    else (w1, [])
                  else (w, [])
      else (w, [])

/-- One step of the fold over the drivers during a tick. -/
def tick_step (speed : ℚ) (acc : World × List Event) (did : Nat) : World × List Event :=
  match acc with
  | (w, events) =>
      match tick_driver speed w did with
      | (w', es) => (w', events ++ es)

/-- `_tick_internal` from `services/dispatch.py`: advance `current_time` by
one, then process every driver once (in storage order, re-reading its current
state at its turn). -/
def tick_internal (speed : ℚ) (w : World) : World × List Event :=
  let ids := w.drivers.map (fun d => d.id)
  let w0 : World := { w with current_time := w.current_time + 1 }
  ids.foldl (tick_step speed) (w0, [])

/-- `_reject_request_internal` from `routers/requests.py`: bump the attempt
counter, re-dispatch via `find_best_driver` excluding the rejecting driver,
and either assign the best remaining driver or mark the request failed. -/
def reject_request_internal (cfg : Config) (w : World) (request_id driver_id : Nat) : World :=
  match getRequest w request_id with
  | none => w  -- unreachable: the route validates existence before calling
  | some request0 =>
      -- Increment attempt counter
      let w1 := updateRequest w request_id (fun r => { r with attempts := r.attempts + 1 })
      let request := { request0 with attempts := request0.attempts + 1 }
      match find_best_driver cfg w1 request [driver_id] with
      | some best_driver =>
          -- Assign to the best available driver
          let w2 := updateRequest w1 request_id (fun r =>
            { r with status := RequestStatus.assigned, assigned_driver_id := some best_driver.id })
          updateDriver w2 best_driver.id (fun d =>
            { d with status := DriverStatus.onTrip, assigned_request_id := some request_id })
      | none =>
          -- No suitable driver found, mark as failed
          updateRequest w1 request_id (fun r =>
            { r with status := RequestStatus.failed, assigned_driver_id := none })

/-- The validation performed by the `/requests/{id}/reject` route before it
calls `_reject_request_internal`: the request must exist and be Waiting, and
the driver must exist. -/
def reject_request (cfg : Config) (w : World) (request_id driver_id : Nat) :
    Except String World :=
  match getRequest w request_id with
  | none => Except.error "Request not found"
  | some request =>
      if request.status ≠ RequestStatus.waiting then
        Except.error "Request is not in waiting status"
      else
        match getDriver w driver_id with
        | none => Except.error "Driver not found"
        | some _ => Except.ok (reject_request_internal cfg w request_id driver_id)

/-! ## Concrete scenario worlds used by counterexamples and witnesses -/

/-- The default configuration from `config.py`:
`DISPATCH_ALPHA = 1.0`, `DISPATCH_BETA = 0.1`. -/
def cfg0 : Config := ⟨1, 1/10⟩

/-- Rejection rate `0`: `random.random() < 0` is always false. -/
def oracleAccept : Nat → Bool := fun _ => false

/-- Rejection rate `1`: `random.random() < 1` is always true. -/
def oracleReject : Nat → Bool := fun _ => true

/-- Scenario A of the spec: one Available driver at `(0,0)` and one Waiting
request with pickup `(2,2)` and dropoff `(8,8)`. -/
def scenarioA_world : World :=
  { drivers := [{ id := 1, x := 0, y := 0, status := DriverStatus.available }],
    riders := [{ id := 1, pickup_x := 2, pickup_y := 2, dropoff_x := 8, dropoff_y := 8 }],
    requests := [{ id := 1, rider_id := 1, pickup_x := 2, pickup_y := 2,
                   dropoff_x := 8, dropoff_y := 8, status := RequestStatus.waiting }],
    current_time := 0 }

/-- Scenario A after the initial dispatch (rejection rate 0). -/
def scenarioA_dispatched : World :=
  (dispatch_ride_internal cfg0 oracleAccept scenarioA_world 0).1

/-- Scenario A world after `n` ticks at speed 1 (following the dispatch). -/
def scenarioA_after (n : Nat) : World :=
  (fun w => (tick_internal 1 w).1)^[n] scenarioA_dispatched

/-- The events emitted by the `(n+1)`-st tick of Scenario A. -/
def scenarioA_events (n : Nat) : List Event :=
  (tick_internal 1 (scenarioA_after n)).2

/-- A world with a single Available driver and two Waiting requests: the
input on which a single Dispatch call books the same driver twice. -/
def doubleBooking_world : World :=
  { drivers := [{ id := 1, x := 0, y := 0, status := DriverStatus.available }],
    riders := [{ id := 1, pickup_x := 1, pickup_y := 1, dropoff_x := 2, dropoff_y := 2 },
               { id := 2, pickup_x := 3, pickup_y := 3, dropoff_x := 4, dropoff_y := 4 }],
    requests := [{ id := 1, rider_id := 1, pickup_x := 1, pickup_y := 1,
                   dropoff_x := 2, dropoff_y := 2, status := RequestStatus.waiting },
                 { id := 2, rider_id := 2, pickup_x := 3, pickup_y := 3,
                   dropoff_x := 4, dropoff_y := 4, status := RequestStatus.waiting }],
    current_time := 0 }

/-- The dispatch call on `doubleBooking_world` with every offer accepted. -/
def doubleBooking_result : World × Nat × List ReqResult :=
  dispatch_ride_internal cfg0 oracleAccept doubleBooking_world 0

/-- A world with a Waiting request but no Available driver (the only driver
is Offline): the witness input for Scenario C. -/
def noDrivers_world : World :=
  { drivers := [{ id := 1, x := 0, y := 0, status := DriverStatus.offline }],
    riders := [{ id := 1, pickup_x := 0, pickup_y := 0, dropoff_x := 1, dropoff_y := 1 }],
    requests := [{ id := 1, rider_id := 1, pickup_x := 0, pickup_y := 0,
                   dropoff_x := 1, dropoff_y := 1, status := RequestStatus.waiting }],
    current_time := 0 }

/-- A world with no OnTrip driver: the witness input for the idle-tick claim. -/
def idle_world : World :=
  { drivers := [{ id := 1, x := 0, y := 0, status := DriverStatus.available },
                { id := 2, x := 3, y := 4, status := DriverStatus.offline }],
    riders := [],
    requests := [{ id := 1, rider_id := 1, pickup_x := 0, pickup_y := 0,
                   dropoff_x := 1, dropoff_y := 1, status := RequestStatus.waiting }],
    current_time := 5 }

/-- The OnTrip driver of the C6 witness world, one step short of the
dropoff `(8,8)`. -/
def c6_driver : Driver :=
  { id := 1, x := 8, y := 7, status := DriverStatus.onTrip, assigned_request_id := some 1 }

/-- The picked-up request of the C6 witness world. -/
def c6_req : RideRequest :=
  { id := 1, rider_id := 1, pickup_x := 0, pickup_y := 0, dropoff_x := 8, dropoff_y := 8,
    status := RequestStatus.assigned, attempts := 0, assigned_driver_id := some 1,
    picked_up := true }

/-- The C6 witness world: one OnTrip driver one step from the dropoff of its
picked-up request. -/
def c6_world : World :=
  { drivers := [c6_driver], riders := [], requests := [c6_req], current_time := 0 }

/-- The rejecting driver of the C10 witness world. -/
def c10_drv : Driver := { id := 1, x := 0, y := 0, status := DriverStatus.available }

/-- The Waiting request of the C10 witness world. -/
def c10_req : RideRequest :=
  { id := 1, rider_id := 1, pickup_x := 1, pickup_y := 1, dropoff_x := 2, dropoff_y := 2,
    status := RequestStatus.waiting }

/-- The C10 witness world: the rejecting driver 1 and one other Available
driver 2. -/
def c10_world : World :=
  { drivers := [c10_drv, { id := 2, x := 5, y := 5, status := DriverStatus.available }],
    riders := [{ id := 1, pickup_x := 1, pickup_y := 1, dropoff_x := 2, dropoff_y := 2 }],
    requests := [c10_req],
    current_time := 0 }

/-- The stale driver used by the C9 witness: OnTrip with a dangling assigned
request id. -/
def stale_driver : Driver :=
  { id := 1, x := 0, y := 0, status := DriverStatus.onTrip, assigned_request_id := some 7 }

/-- A world containing an OnTrip driver whose assigned request does not
exist (e.g. deleted out from under it). -/
def stale_world : World :=
  { drivers := [stale_driver,
                { id := 2, x := 1, y := 1, status := DriverStatus.available }],
    riders := [],
    requests := [],
    current_time := 0 }

/-! ## Basic lemmas about the embedded utilities -/

theorem pyAbs_eq_abs (q : ℚ) : pyAbs q = |q| := by
  unfold pyAbs
  split_ifs with h
  · exact (abs_of_neg h).symm
  · exact (abs_of_nonneg (not_lt.mp h)).symm

theorem pyAbs_nonneg (q : ℚ) : 0 ≤ pyAbs q := by
  unfold pyAbs; split_ifs with h <;> linarith

theorem pyAbs_eq_zero_iff (q : ℚ) : pyAbs q = 0 ↔ q = 0 := by
  unfold pyAbs; split_ifs with h
  · constructor <;> intro h2 <;> linarith
  · constructor <;> intro h2 <;> linarith

theorem manhattan_eq_zero_iff (x1 y1 x2 y2 : ℚ) :
    calculate_manhattan_distance x1 y1 x2 y2 = 0 ↔ x1 = x2 ∧ y1 = y2 := by
  unfold calculate_manhattan_distance
  constructor
  · intro h
    have h1 := pyAbs_nonneg (x1 - x2)
    have h2 := pyAbs_nonneg (y1 - y2)
    have hx : pyAbs (x1 - x2) = 0 := by linarith
    have hy : pyAbs (y1 - y2) = 0 := by linarith
    rw [pyAbs_eq_zero_iff] at hx hy
    exact ⟨by linarith, by linarith⟩
  · rintro ⟨hx, hy⟩
    subst hx; subst hy
    simp [pyAbs_eq_zero_iff]

theorem manhattan_pos_iff (x1 y1 x2 y2 : ℚ) :
    0 < calculate_manhattan_distance x1 y1 x2 y2 ↔ ¬(x1 = x2 ∧ y1 = y2) := by
  rw [← manhattan_eq_zero_iff x1 y1 x2 y2]
  have h1 := pyAbs_nonneg (x1 - x2)
  have h2 := pyAbs_nonneg (y1 - y2)
  unfold calculate_manhattan_distance at *
  constructor
  · intro h hz; linarith
  · intro h; rcases lt_or_eq_of_le (by linarith : (0:ℚ) ≤ pyAbs (x1 - x2) + pyAbs (y1 - y2)) with h3 | h3
    · exact h3
    · exact absurd h3.symm h

/-- One axis of `move_towards_target`: the new coordinate stays between the
current coordinate and the target (no overshoot from either direction). -/
theorem move_axis_bounds (s c t n : ℚ) (hs : 0 < s)
    (hn : n = if c < t then pyMin (c + s) t else if c > t then pyMax (c - s) t else c) :
    (c ≤ t → c ≤ n ∧ n ≤ t) ∧ (t ≤ c → t ≤ n ∧ n ≤ c) := by
  subst hn
  unfold pyMin pyMax
  split_ifs with h1 h2 h3 h4 <;>
    exact ⟨fun hc => ⟨by linarith, by linarith⟩, fun hc => ⟨by linarith, by linarith⟩⟩

/-- A coordinate that stays between the current value and the target is no
farther from the target than the current value. -/
theorem pyAbs_sub_le_of_between (c t n : ℚ)
    (h1 : c ≤ t → c ≤ n ∧ n ≤ t) (h2 : t ≤ c → t ≤ n ∧ n ≤ c) :
    pyAbs (n - t) ≤ pyAbs (c - t) := by
  unfold pyAbs
  rcases le_total c t with h | h
  · obtain ⟨ha, hb⟩ := h1 h
    split_ifs <;> linarith
  · obtain ⟨ha, hb⟩ := h2 h
    split_ifs <;> linarith

/-! ## Lemmas about world lookup and in-place update -/

/-- `find?` by id commutes with an id-preserving, id-directed map. -/
theorem find?_map_id_preserving {α : Type} (l : List α) (idf : α → Nat) (i j : Nat)
    (f : α → α) (hf : ∀ a, idf (f a) = idf a) :
    (l.map (fun a => if idf a = i then f a else a)).find? (fun a => idf a = j)
      = (l.find? (fun a => idf a = j)).map (fun a => if idf a = i then f a else a) := by
  induction l with
  | nil => rfl
  | cons a tl ih =>
    have hga : idf (if idf a = i then f a else a) = idf a := by
      by_cases h : idf a = i <;> simp [h, hf]
    by_cases h : idf a = j
    · rw [List.map_cons, List.find?_cons_of_pos _ (by rw [hga]; simpa using h),
        List.find?_cons_of_pos _ (by simpa using h)]
      rfl
    · rw [List.map_cons, List.find?_cons_of_neg _ (by rw [hga]; simpa using h),
        List.find?_cons_of_neg _ (by simpa using h), ih]

theorem getDriver_id (w : World) (i : Nat) (d : Driver) (h : getDriver w i = some d) :
    d.id = i := by
  have := List.find?_some h
  simpa using this

theorem getDriver_mem (w : World) (i : Nat) (d : Driver) (h : getDriver w i = some d) :
    d ∈ w.drivers :=
  List.mem_of_find?_eq_some h

theorem getRequest_id (w : World) (i : Nat) (r : RideRequest) (h : getRequest w i = some r) :
    r.id = i := by
  have := List.find?_some h
  simpa using this

theorem getRequest_mem (w : World) (i : Nat) (r : RideRequest) (h : getRequest w i = some r) :
    r ∈ w.requests :=
  List.mem_of_find?_eq_some h

theorem getDriver_updateDriver (w : World) (i j : Nat) (f : Driver → Driver)
    (hf : ∀ d, (f d).id = d.id) :
    getDriver (updateDriver w i f) j
      = (getDriver w j).map (fun d => if d.id = i then f d else d) :=
  find?_map_id_preserving w.drivers Driver.id i j f hf

theorem getDriver_updateDriver_self (w : World) (i : Nat) (f : Driver → Driver)
    (hf : ∀ d, (f d).id = d.id) :
    getDriver (updateDriver w i f) i = (getDriver w i).map f := by
  rw [getDriver_updateDriver w i i f hf]
  cases h : getDriver w i with
  | none => rfl
  | some d => simp [getDriver_id w i d h]

theorem getDriver_updateDriver_ne (w : World) (i j : Nat) (f : Driver → Driver)
    (hf : ∀ d, (f d).id = d.id) (hij : j ≠ i) :
    getDriver (updateDriver w i f) j = getDriver w j := by
  rw [getDriver_updateDriver w i j f hf]
  cases h : getDriver w j with
  | none => rfl
  | some d => simp [getDriver_id w j d h, hij]

theorem getRequest_updateRequest (w : World) (i j : Nat) (f : RideRequest → RideRequest)
    (hf : ∀ r, (f r).id = r.id) :
    getRequest (updateRequest w i f) j
      = (getRequest w j).map (fun r => if r.id = i then f r else r) :=
  find?_map_id_preserving w.requests RideRequest.id i j f hf

theorem getRequest_updateRequest_self (w : World) (i : Nat) (f : RideRequest → RideRequest)
    (hf : ∀ r, (f r).id = r.id) :
    getRequest (updateRequest w i f) i = (getRequest w i).map f := by
  rw [getRequest_updateRequest w i i f hf]
  cases h : getRequest w i with
  | none => rfl
  | some r => simp [getRequest_id w i r h]

theorem getRequest_updateRequest_ne (w : World) (i j : Nat) (f : RideRequest → RideRequest)
    (hf : ∀ r, (f r).id = r.id) (hij : j ≠ i) :
    getRequest (updateRequest w i f) j = getRequest w j := by
  rw [getRequest_updateRequest w i j f hf]
  cases h : getRequest w j with
  | none => rfl
  | some r => simp [getRequest_id w j r h, hij]

theorem getRequest_updateRequest_none (w : World) (i j : Nat) (f : RideRequest → RideRequest)
    (hf : ∀ r, (f r).id = r.id) (h : getRequest w j = none) :
    getRequest (updateRequest w i f) j = none := by
  rw [getRequest_updateRequest w i j f hf, h]
  rfl

theorem getRequest_updateRequest_none_iff (w : World) (i j : Nat)
    (f : RideRequest → RideRequest) (hf : ∀ r, (f r).id = r.id) :
    getRequest (updateRequest w i f) j = none ↔ getRequest w j = none := by
  rw [getRequest_updateRequest w i j f hf]
  cases getRequest w j <;> simp

theorem getDriver_updateRequest (w : World) (i j : Nat) (f : RideRequest → RideRequest) :
    getDriver (updateRequest w i f) j = getDriver w j := rfl

theorem getRequest_updateDriver (w : World) (i j : Nat) (f : Driver → Driver) :
    getRequest (updateDriver w i f) j = getRequest w j := rfl

/-! ## Tick lemmas -/

/-- A driver that is not OnTrip is not processed by a tick step. -/
theorem tick_driver_skip_of_not_onTrip (speed : ℚ) (w : World) (did : Nat)
    (h : ∀ d ∈ w.drivers, d.status ≠ DriverStatus.onTrip) :
    tick_driver speed w did = (w, []) := by
  cases hd : getDriver w did with
  | none => simp [tick_driver, hd]
  | some driver =>
    have hstatus := h driver (getDriver_mem w did driver hd)
    simp only [tick_driver, hd]
    rw [if_neg (by rintro ⟨h1, _⟩; exact hstatus h1)]

/-- When no driver is OnTrip the whole tick fold is the identity on the
state/event accumulator. -/
theorem tick_fold_noop (speed : ℚ) (w0 : World)
    (h : ∀ d ∈ w0.drivers, d.status ≠ DriverStatus.onTrip) :
    ∀ (ids : List Nat) (evs : List Event), ids.foldl (tick_step speed) (w0, evs) = (w0, evs) := by
  intro ids
  induction ids with
  | nil => intro evs; rfl
  | cons i tl ih =>
    intro evs
    rw [List.foldl_cons]
    have hstep : tick_step speed (w0, evs) i = (w0, evs) := by
      simp [tick_step, tick_driver_skip_of_not_onTrip speed w0 i h]
    rw [hstep]
    exact ih evs

/-- Unfolding of one tick step. -/
theorem tick_step_eq (speed : ℚ) (w : World) (evs : List Event) (i : Nat) :
    tick_step speed (w, evs) i
      = ((tick_driver speed w i).1, evs ++ (tick_driver speed w i).2) := by
  simp [tick_step]

/-- Processing any driver within a tick preserves a driver whose assigned
request does not resolve, preserves the non-existence of that request, and
emits no event with that driver's id. -/
theorem tick_driver_preserves_stale (speed : ℚ) (w : World) (did2 did rid : Nat) (d : Driver)
    (hd : getDriver w did = some d) (ha : d.assigned_request_id = some rid)
    (hr : getRequest w rid = none) :
    getDriver (tick_driver speed w did2).1 did = some d
    ∧ getRequest (tick_driver speed w did2).1 rid = none
    ∧ ∀ e ∈ (tick_driver speed w did2).2, e.driver_id ≠ d.id := by
  cases hd2 : getDriver w did2 with
  | none => simp [tick_driver, hd2, hd, hr]
  | some drv =>
    by_cases hguard : drv.status = DriverStatus.onTrip ∧ isTruthy drv.assigned_request_id = true
    · cases ha2 : drv.assigned_request_id with
      | none => simp [tick_driver, hd2, if_pos hguard, ha2, hd, hr]
      | some rid2 =>
        cases hr2 : getRequest w rid2 with
        | none => simp [tick_driver, hd2, if_pos hguard, ha2, hr2, hd, hr]
        | some request =>
          have hne : drv.id ≠ d.id := by
            intro hEq
            have hdid2 : drv.id = did2 := getDriver_id w did2 drv hd2
            have hdid : d.id = did := getDriver_id w did d hd
            have hsame : did2 = did := by rw [← hdid2, hEq, hdid]
            rw [hsame, hd] at hd2
            injection hd2 with hdrvd
            subst hdrvd
            rw [ha] at ha2
            injection ha2 with hridEq
            subst hridEq
            rw [hr] at hr2
            exact Option.noConfusion hr2
          have hdidne : did ≠ drv.id := by
            intro hEq
            exact hne (by rw [← hEq, getDriver_id w did d hd])
          simp only [tick_driver, hd2, if_pos hguard, ha2, hr2]
          split_ifs <;> refine ⟨?_, ?_, ?_⟩ <;>
            first
              | (repeat
                  first
                    | rw [getDriver_updateRequest]
                    | rw [getDriver_updateDriver_ne _ _ _ _ (by intro a; rfl) hdidne]
                 exact hd)
              | (repeat
                  first
                    | rw [getRequest_updateDriver]
                    | rw [getRequest_updateRequest_none_iff _ _ _ _ (by intro a; rfl)]
                 exact hr)
              | (intro e he
                 first
                   | exact absurd he (List.not_mem_nil e)
                   | (simp only [List.mem_singleton] at he
                      subst he
                      exact hne))
    · simp [tick_driver, hd2, if_neg hguard, hd, hr]

/-- The tick fold preserves a stale-referencing driver and never emits an
event carrying its id. -/
theorem tick_fold_preserves_stale (speed : ℚ) (did rid : Nat) (d : Driver)
    (ha : d.assigned_request_id = some rid) :
    ∀ (ids : List Nat) (w' : World) (evs : List Event),
      getDriver w' did = some d → getRequest w' rid = none →
      (∀ e ∈ evs, e.driver_id ≠ d.id) →
      getDriver (ids.foldl (tick_step speed) (w', evs)).1 did = some d
      ∧ getRequest (ids.foldl (tick_step speed) (w', evs)).1 rid = none
      ∧ ∀ e ∈ (ids.foldl (tick_step speed) (w', evs)).2, e.driver_id ≠ d.id := by
  intro ids
  induction ids with
  | nil => intro w' evs h1 h2 h3; exact ⟨h1, h2, h3⟩
  | cons i tl ih =>
    intro w' evs h1 h2 h3
    rw [List.foldl_cons, tick_step_eq]
    have hstep := tick_driver_preserves_stale speed w' i did rid d h1 ha h2
    refine ih _ _ hstep.1 hstep.2.1 ?_
    intro e he
    rcases List.mem_append.mp he with h | h
    · exact h3 e h
    · exact hstep.2.2 e h

/-! ## Lemmas about the best-score selection loop -/

theorem foldl_pickBetter_mem (cfg : Config) (req : RideRequest) :
    ∀ (ds : List Driver) (acc : Option Driver) (b : Driver),
      ds.foldl (pickBetter cfg req) acc = some b → b ∈ ds ∨ acc = some b := by
  intro ds
  induction ds with
  | nil => intro acc b h; exact Or.inr h
  | cons a tl ih =>
    intro acc b h
    rw [List.foldl_cons] at h
    rcases ih (pickBetter cfg req acc a) b h with hmem | hacc
    · exact Or.inl (List.mem_cons_of_mem a hmem)
    · cases acc with
      | none =>
        simp only [pickBetter] at hacc
        injection hacc with h2
        exact Or.inl (by rw [← h2]; exact List.mem_cons_self a tl)
      | some best =>
        simp only [pickBetter] at hacc
        split_ifs at hacc
        · injection hacc with h2
          exact Or.inl (by rw [← h2]; exact List.mem_cons_self a tl)
        · exact Or.inr hacc

theorem foldl_pickBetter_min (cfg : Config) (req : RideRequest) :
    ∀ (ds : List Driver) (acc : Option Driver) (b : Driver),
      ds.foldl (pickBetter cfg req) acc = some b →
      (∀ d ∈ ds, calculate_driver_score cfg b req ≤ calculate_driver_score cfg d req)
      ∧ (∀ a0, acc = some a0 →
          calculate_driver_score cfg b req ≤ calculate_driver_score cfg a0 req) := by
  intro ds
  induction ds with
  | nil =>
    intro acc b h
    refine ⟨by simp, fun a0 ha0 => ?_⟩
    rw [ha0] at h
    injection h with h2
    rw [h2]
  | cons a tl ih =>
    intro acc b h
    rw [List.foldl_cons] at h
    obtain ⟨htl, hacc⟩ := ih (pickBetter cfg req acc a) b h
    constructor
    · intro d hd
      rcases List.mem_cons.mp hd with rfl | hd'
      · cases acc with
        | none => exact hacc d rfl
        | some best =>
          by_cases hlt : calculate_driver_score cfg d req < calculate_driver_score cfg best req
          · exact hacc d (by simp [pickBetter, hlt])
          · exact le_trans (hacc best (by simp [pickBetter, hlt])) (not_lt.mp hlt)
      · exact htl d hd'
    · intro a0 ha0
      subst ha0
      by_cases hlt : calculate_driver_score cfg a req < calculate_driver_score cfg a0 req
      · exact le_trans (hacc a (by simp [pickBetter, hlt])) (le_of_lt hlt)
      · exact hacc a0 (by simp [pickBetter, hlt])

theorem foldl_pickBetter_isSome (cfg : Config) (req : RideRequest) :
    ∀ (ds : List Driver) (x : Driver),
      (ds.foldl (pickBetter cfg req) (some x)).isSome := by
  intro ds
  induction ds with
  | nil => intro x; rfl
  | cons a tl ih =>
    intro x
    rw [List.foldl_cons]
    have hsome : ∃ y, pickBetter cfg req (some x) a = some y := by
      simp only [pickBetter]
      split_ifs <;> exact ⟨_, rfl⟩
    obtain ⟨y, hy⟩ := hsome
    rw [hy]
    exact ih y

theorem bestByScore_none_iff (cfg : Config) (req : RideRequest) (ds : List Driver) :
    bestByScore cfg req ds = none ↔ ds = [] := by
  constructor
  · intro h
    cases ds with
    | nil => rfl
    | cons a tl =>
      exfalso
      unfold bestByScore at h
      rw [List.foldl_cons] at h
      have := foldl_pickBetter_isSome cfg req tl a
      have hpick : pickBetter cfg req none a = some a := rfl
      rw [hpick] at h
      rw [h] at this
      exact Bool.noConfusion this
  · intro h; subst h; rfl

theorem bestByScore_spec (cfg : Config) (req : RideRequest) (ds : List Driver) (b : Driver)
    (h : bestByScore cfg req ds = some b) :
    b ∈ ds ∧ ∀ d ∈ ds, calculate_driver_score cfg b req ≤ calculate_driver_score cfg d req := by
  unfold bestByScore at h
  rcases foldl_pickBetter_mem cfg req ds none b h with hm | hacc
  · exact ⟨hm, (foldl_pickBetter_min cfg req ds none b h).1⟩
  · exact Option.noConfusion hacc

/-- `find_best_driver` returns an Available, non-excluded driver of minimal
score among the Available, non-excluded drivers. -/
theorem find_best_driver_spec (cfg : Config) (w : World) (req : RideRequest)
    (exclude : List Nat) (b : Driver)
    (h : find_best_driver cfg w req exclude = some b) :
    b ∈ w.drivers ∧ b.status = DriverStatus.available ∧ b.id ∉ exclude
    ∧ ∀ d ∈ w.drivers, d.status = DriverStatus.available → d.id ∉ exclude →
        calculate_driver_score cfg b req ≤ calculate_driver_score cfg d req := by
  unfold find_best_driver at h
  obtain ⟨hm, hmin⟩ := bestByScore_spec cfg req _ b h
  rw [List.mem_filter] at hm
  obtain ⟨hm1, hm2⟩ := hm
  simp only [decide_eq_true_eq] at hm2
  refine ⟨hm1, hm2.1, hm2.2, ?_⟩
  intro d hd hs hex
  exact hmin d (List.mem_filter.mpr ⟨hd, by simp [hs, hex]⟩)

/-- `find_best_driver` returns `None` exactly when no Available,
non-excluded driver exists. -/
theorem find_best_driver_none (cfg : Config) (w : World) (req : RideRequest)
    (exclude : List Nat)
    (h : find_best_driver cfg w req exclude = none) :
    ∀ d ∈ w.drivers, ¬(d.status = DriverStatus.available ∧ d.id ∉ exclude) := by
  unfold find_best_driver at h
  rw [bestByScore_none_iff, List.filter_eq_nil_iff] at h
  intro d hd
  have := h d hd
  simpa using this

/-! ## Lemmas about the dispatch retry loop -/

/-- The retry loop performs at most `budget` further attempts. -/
theorem offer_loop_attempts_le (cfg : Config) (oracle : Nat → Bool) (req : RideRequest) :
    ∀ (budget : Nat) (w : World) (k : Nat) (best : Driver) (cands : List Nat) (a : Nat),
      (offer_loop cfg oracle req budget w k best cands a).attempts_made ≤ a + budget := by
  intro budget
  induction budget with
  | zero => intro w k best cands a; simp [offer_loop]
  | succ n ih =>
    intro w k best cands a
    simp only [offer_loop]
    by_cases ho : oracle k
    · rw [if_pos ho]
      cases hb : bestByScore cfg req (resolveDrivers w (cands.erase best.id)) with
      | some nb =>
        dsimp only
        have h := ih w (k + 1) nb (cands.erase best.id) (a + 1)
        omega
      | none =>
        dsimp only
        omega
    · rw [if_neg ho]
      dsimp only
      omega

/-- With an all-reject oracle the retry loop never produces a result entry. -/
theorem offer_loop_all_reject (cfg : Config) (oracle : Nat → Bool) (req : RideRequest)
    (hor : ∀ n, oracle n = true) :
    ∀ (budget : Nat) (w : World) (k : Nat) (best : Driver) (cands : List Nat) (a : Nat),
      (offer_loop cfg oracle req budget w k best cands a).result = none := by
  intro budget
  induction budget with
  | zero => intro w k best cands a; simp [offer_loop]
  | succ n ih =>
    intro w k best cands a
    simp only [offer_loop]
    rw [if_pos (hor k)]
    cases hb : bestByScore cfg req (resolveDrivers w (cands.erase best.id)) with
    | some nb =>
      dsimp only
      exact ih w (k + 1) nb (cands.erase best.id) (a + 1)
    | none =>
      dsimp only

/-- Any result entry the retry loop produces carries status `"assigned"`. -/
theorem offer_loop_result_status (cfg : Config) (oracle : Nat → Bool) (req : RideRequest) :
    ∀ (budget : Nat) (w : World) (k : Nat) (best : Driver) (cands : List Nat) (a : Nat)
      (res : ReqResult),
      (offer_loop cfg oracle req budget w k best cands a).result = some res →
      res.status = "assigned" := by
  intro budget
  induction budget with
  | zero =>
    intro w k best cands a res h
    simp [offer_loop] at h
  | succ n ih =>
    intro w k best cands a res h
    simp only [offer_loop] at h
    by_cases ho : oracle k
    · rw [if_pos ho] at h
      cases hb : bestByScore cfg req (resolveDrivers w (cands.erase best.id)) with
      | some nb =>
        rw [hb] at h
        dsimp only at h
        exact ih w (k + 1) nb (cands.erase best.id) (a + 1) res h
      | none =>
        rw [hb] at h
        dsimp only at h
        exact Option.noConfusion h
    · rw [if_neg ho] at h
      dsimp only at h
      injection h with h2
      rw [← h2]

/-- Every result entry of `process_request`: a failed entry records exactly
`candidate-list length` attempts, and with an all-reject oracle every entry
is a failed entry. -/
theorem process_request_results (cfg : Config) (oracle : Nat → Bool) (w : World) (k : Nat)
    (ids : List Nat) (req : RideRequest) :
    ∀ r ∈ (process_request cfg oracle w k ids req).2.2,
      (r.status = "failed" → r.attempts = ids.length)
      ∧ ((∀ n, oracle n = true) → r.status = "failed") := by
  intro r hr
  unfold process_request at hr
  dsimp only at hr
  cases hb : bestByScore cfg req (resolveDrivers w ids) with
  | none =>
    rw [hb] at hr
    dsimp only at hr
    exact absurd hr (List.not_mem_nil r)
  | some best =>
    rw [hb] at hr
    dsimp only at hr
    cases hres : (offer_loop cfg oracle req ids.length w k best ids 0).result with
    | some res =>
      rw [hres] at hr
      dsimp only at hr
      rw [List.mem_singleton] at hr
      subst hr
      have hstat := offer_loop_result_status cfg oracle req ids.length w k best ids 0 r hres
      constructor
      · intro hfail
        rw [hstat] at hfail
        exact absurd hfail (by decide)
      · intro hor
        have := offer_loop_all_reject cfg oracle req hor ids.length w k best ids 0
        rw [this] at hres
        exact Option.noConfusion hres
    | none =>
      rw [hres] at hr
      dsimp only at hr
      by_cases hge : (offer_loop cfg oracle req ids.length w k best ids 0).attempts_made
          ≥ ids.length
      · rw [if_pos hge] at hr
        rw [List.mem_singleton] at hr
        subst hr
        have hle := offer_loop_attempts_le cfg oracle req ids.length w k best ids 0
        constructor
        · intro _
          dsimp only
          omega
        · intro _
          rfl
      · rw [if_neg hge] at hr
        exact absurd hr (List.not_mem_nil r)

/-- Properties of single-request processing lift through the fold over the
waiting snapshot. -/
theorem dispatch_results_forall (cfg : Config) (oracle : Nat → Bool) (ids : List Nat)
    (P : ReqResult → Prop)
    (hP : ∀ (w : World) (k : Nat) (req : RideRequest) (r : ReqResult),
      r ∈ (process_request cfg oracle w k ids req).2.2 → P r) :
    ∀ (ws : List RideRequest) (w0 : World) (k0 : Nat) (rs0 : List ReqResult),
      (∀ r ∈ rs0, P r) →
      ∀ r ∈ (ws.foldl (dispatch_step cfg oracle ids) (w0, k0, rs0)).2.2, P r := by
  intro ws
  induction ws with
  | nil => intro w0 k0 rs0 h0 r hr; exact h0 r hr
  | cons q tl ih =>
    intro w0 k0 rs0 h0 r hr
    rw [List.foldl_cons] at hr
    have hds : dispatch_step cfg oracle ids (w0, k0, rs0) q
        = ((process_request cfg oracle w0 k0 ids q).1,
           (process_request cfg oracle w0 k0 ids q).2.1,
           rs0 ++ (process_request cfg oracle w0 k0 ids q).2.2) := by
      simp [dispatch_step]
    rw [hds] at hr
    refine ih _ _ _ ?_ r hr
    intro r' hr'
    rcases List.mem_append.mp hr' with h | h
    · exact h0 r' h
    · exact hP w0 k0 q r' h

/-! ## Claim theorems -/

/-- C5: for every current position, target position and positive step size,
one `move_towards_target` step never overshoots: the rectilinear distance to
the target does not increase, and on each axis the new coordinate stays
between the old coordinate and the target coordinate (never passes beyond it
from either direction). -/
theorem C5_move_never_overshoots (speed cx cy tx ty : ℚ) (hs : 0 < speed) :
    calculate_manhattan_distance (move_towards_target speed cx cy tx ty).1
        (move_towards_target speed cx cy tx ty).2 tx ty
      ≤ calculate_manhattan_distance cx cy tx ty
    ∧ (cx ≤ tx → cx ≤ (move_towards_target speed cx cy tx ty).1
        ∧ (move_towards_target speed cx cy tx ty).1 ≤ tx)
    ∧ (tx ≤ cx → tx ≤ (move_towards_target speed cx cy tx ty).1
        ∧ (move_towards_target speed cx cy tx ty).1 ≤ cx)
    ∧ (cy ≤ ty → cy ≤ (move_towards_target speed cx cy tx ty).2
        ∧ (move_towards_target speed cx cy tx ty).2 ≤ ty)
    ∧ (ty ≤ cy → ty ≤ (move_towards_target speed cx cy tx ty).2
        ∧ (move_towards_target speed cx cy tx ty).2 ≤ cy) := by
  have hx := move_axis_bounds speed cx tx (move_towards_target speed cx cy tx ty).1 hs rfl
  have hy := move_axis_bounds speed cy ty (move_towards_target speed cx cy tx ty).2 hs rfl
  refine ⟨?_, hx.1, hx.2, hy.1, hy.2⟩
  unfold calculate_manhattan_distance
  exact add_le_add (pyAbs_sub_le_of_between cx tx _ hx.1 hx.2)
    (pyAbs_sub_le_of_between cy ty _ hy.1 hy.2)

/-- C7: if no driver is Available (or no request is Waiting), Dispatch
returns an empty results list, raises no error, and leaves the whole world
state — in particular every Waiting request — unchanged. -/
theorem C7_no_candidates_noop (cfg : Config) (oracle : Nat → Bool) (w : World) (k : Nat)
    (h : (∀ d ∈ w.drivers, d.status ≠ DriverStatus.available)
        ∨ (∀ r ∈ w.requests, r.status ≠ RequestStatus.waiting)) :
    dispatch_ride_internal cfg oracle w k = (w, k, []) := by
  unfold dispatch_ride_internal
  rcases h with h | h
  · by_cases hw : (w.requests.filter (fun r => r.status = RequestStatus.waiting)).isEmpty
    · simp [hw]
    · have hav : w.drivers.filter (fun d => d.status = DriverStatus.available) = [] := by
        rw [List.filter_eq_nil_iff]
        intro d hd
        simp only [decide_eq_true_eq]
        exact h d hd
      simp [hw, hav]
  · have hwn : w.requests.filter (fun r => r.status = RequestStatus.waiting) = [] := by
      rw [List.filter_eq_nil_iff]
      intro r hr
      simp only [decide_eq_true_eq]
      exact h r hr
    simp [hwn]

/-- Witness for C7: on `noDrivers_world` (one Offline driver, one Waiting
request) Dispatch returns the world untouched with an empty results list. -/
theorem C7_witness :
    dispatch_ride_internal cfg0 oracleAccept noDrivers_world 0 = (noDrivers_world, 0, []) :=
  C7_no_candidates_noop cfg0 oracleAccept noDrivers_world 0 (Or.inl (by decide))

/-- C8: when no driver is OnTrip, Tick increments the time counter by
exactly one, returns an empty event list, and changes no driver, rider or
request field (the resulting world is the input world with only
`current_time` bumped). -/
theorem C8_idle_tick (speed : ℚ) (w : World)
    (h : ∀ d ∈ w.drivers, d.status ≠ DriverStatus.onTrip) :
    tick_internal speed w = ({ w with current_time := w.current_time + 1 }, []) := by
  unfold tick_internal
  exact tick_fold_noop speed { w with current_time := w.current_time + 1 } h
    (w.drivers.map (fun d => d.id)) []

/-- Witness for C8: on `idle_world` (an Available and an Offline driver,
no OnTrip driver) a tick only bumps the time counter. -/
theorem C8_witness :
    tick_internal 1 idle_world = ({ idle_world with current_time := idle_world.current_time + 1 }, []) :=
  C8_idle_tick 1 idle_world (by decide)

/-- C9: an OnTrip driver whose `assigned_request_id` does not resolve to an
existing request is skipped by Tick without error: the driver record
(position, status, assigned request reference) is unchanged and no event
carries its id. -/
theorem C9_stale_reference_skipped (speed : ℚ) (w : World) (did rid : Nat) (d : Driver)
    (hd : getDriver w did = some d) (_hst : d.status = DriverStatus.onTrip)
    (ha : d.assigned_request_id = some rid) (hr : getRequest w rid = none) :
    getDriver (tick_internal speed w).1 did = some d
    ∧ ∀ e ∈ (tick_internal speed w).2, e.driver_id ≠ d.id := by
  unfold tick_internal
  have hres := tick_fold_preserves_stale speed did rid d ha
    (w.drivers.map (fun d => d.id)) { w with current_time := w.current_time + 1 } [] hd hr
    (by intro e he; exact absurd he (List.not_mem_nil e))
  exact ⟨hres.1, hres.2.2⟩

/-- Witness for C9: on `stale_world`, whose driver 1 is OnTrip with dangling
`assigned_request_id = 7`, a tick leaves driver 1 unchanged and emits no
event for it. -/
theorem C9_witness :
    getDriver (tick_internal 1 stale_world).1 1 = some stale_driver
    ∧ ∀ e ∈ (tick_internal 1 stale_world).2, e.driver_id ≠ stale_driver.id :=
  C9_stale_reference_skipped 1 stale_world 1 7 stale_driver rfl rfl rfl rfl

/-- C6: if an OnTrip driver's picked-up request is not yet at its dropoff
and the movement step of this tick lands the driver exactly on the dropoff
coordinates, then processing that driver in the tick emits a `completed`
event for the driver/request pair, sets the request's status to Completed
with `picked_up` reset to false, and returns the driver to Available with
its assigned-request link cleared. -/
theorem C6_completion (speed : ℚ) (w : World) (did rid : Nat) (d : Driver) (req : RideRequest)
    (hd : getDriver w did = some d)
    (hst : d.status = DriverStatus.onTrip)
    (ha : d.assigned_request_id = some rid)
    (hrid : rid ≠ 0)
    (hr : getRequest w rid = some req)
    (hp : req.picked_up = true)
    (hne : ¬(d.x = req.dropoff_x ∧ d.y = req.dropoff_y))
    (hland : move_towards_target speed d.x d.y req.dropoff_x req.dropoff_y
        = (req.dropoff_x, req.dropoff_y)) :
    (tick_driver speed w did).2
        = [{ driver_id := d.id, request_id := req.id, event := "completed" }]
    ∧ (∃ req', getRequest (tick_driver speed w did).1 rid = some req'
        ∧ req'.status = RequestStatus.completed ∧ req'.picked_up = false)
    ∧ (∃ d', getDriver (tick_driver speed w did).1 did = some d'
        ∧ d'.status = DriverStatus.available ∧ d'.assigned_request_id = none) := by
  have hguard : d.status = DriverStatus.onTrip ∧ isTruthy d.assigned_request_id = true := by
    refine ⟨hst, ?_⟩
    rw [ha]
    simpa [isTruthy] using hrid
  have hdist : calculate_manhattan_distance d.x d.y req.dropoff_x req.dropoff_y > 0 :=
    (manhattan_pos_iff d.x d.y req.dropoff_x req.dropoff_y).mpr hne
  have hland0 : calculate_manhattan_distance
      (move_towards_target speed d.x d.y req.dropoff_x req.dropoff_y).1
      (move_towards_target speed d.x d.y req.dropoff_x req.dropoff_y).2
      req.dropoff_x req.dropoff_y = 0 := by
    rw [hland]
    exact (manhattan_eq_zero_iff req.dropoff_x req.dropoff_y req.dropoff_x req.dropoff_y).mpr
      ⟨rfl, rfl⟩
  have hreqid : req.id = rid := getRequest_id w rid req hr
  have hdid : d.id = did := getDriver_id w did d hd
  simp only [tick_driver, hd]
  rw [if_pos hguard]
  simp only [ha, hr]
  rw [if_neg (by simp [hp]), if_pos hdist, if_pos hland0]
  refine ⟨rfl, ?_, ?_⟩
  · rw [getRequest_updateDriver, hreqid,
      getRequest_updateRequest_self _ rid _ (by intro a; rfl),
      getRequest_updateDriver, hr]
    exact ⟨_, rfl, rfl, rfl⟩
  · rw [hdid, getDriver_updateDriver_self _ did _ (by intro a; rfl),
      getDriver_updateRequest,
      getDriver_updateDriver_self _ did _ (by intro a; rfl), hd]
    exact ⟨_, rfl, rfl, rfl⟩

/-- Witness for C6: in `c6_world` the driver at `(8,7)` lands on the dropoff
`(8,8)` this tick, completing the trip. -/
theorem C6_witness :
    (tick_driver 1 c6_world 1).2
        = [{ driver_id := c6_driver.id, request_id := c6_req.id, event := "completed" }]
    ∧ (∃ req', getRequest (tick_driver 1 c6_world 1).1 1 = some req'
        ∧ req'.status = RequestStatus.completed ∧ req'.picked_up = false)
    ∧ (∃ d', getDriver (tick_driver 1 c6_world 1).1 1 = some d'
        ∧ d'.status = DriverStatus.available ∧ d'.assigned_request_id = none) :=
  C6_completion 1 c6_world 1 1 c6_driver c6_req rfl rfl rfl (by decide) rfl rfl
    (by with_unfolding_all decide) (by with_unfolding_all decide)

/-- C10: the manual reject operation, called on a Waiting request with an
existing driver id, passes the route's validation, increments the request's
attempts counter by exactly one, and then either assigns the request to a
minimum-score driver among the Available drivers other than the rejecting
driver (that driver becoming OnTrip, back-referencing the request), or — if
no such driver exists — marks the request Failed with a null assigned
driver; the rejecting driver's own record is never modified. -/
theorem C10_manual_reject (cfg : Config) (w : World) (rid did : Nat)
    (req : RideRequest) (drv : Driver)
    (hreq : getRequest w rid = some req)
    (hwait : req.status = RequestStatus.waiting)
    (hdrv : getDriver w did = some drv) :
    reject_request cfg w rid did = Except.ok (reject_request_internal cfg w rid did)
    ∧ (∃ req', getRequest (reject_request_internal cfg w rid did) rid = some req'
        ∧ req'.attempts = req.attempts + 1
        ∧ ((∃ b : Driver, req'.status = RequestStatus.assigned
              ∧ req'.assigned_driver_id = some b.id
              ∧ b ∈ w.drivers ∧ b.status = DriverStatus.available ∧ b.id ≠ did
              ∧ (∀ d ∈ w.drivers, d.status = DriverStatus.available → d.id ≠ did →
                  calculate_driver_score cfg b req ≤ calculate_driver_score cfg d req)
              ∧ (∃ d', getDriver (reject_request_internal cfg w rid did) b.id = some d'
                  ∧ d'.status = DriverStatus.onTrip ∧ d'.assigned_request_id = some rid))
            ∨ ((∀ d ∈ w.drivers, ¬(d.status = DriverStatus.available ∧ d.id ≠ did))
              ∧ req'.status = RequestStatus.failed ∧ req'.assigned_driver_id = none)))
    ∧ getDriver (reject_request_internal cfg w rid did) did = getDriver w did := by
  refine ⟨?_, ?_⟩
  · simp only [reject_request, hreq, hdrv]
    rw [if_neg (by simp [hwait])]
  · simp only [reject_request_internal, hreq]
    cases hfb : find_best_driver cfg
        (updateRequest w rid (fun r => { r with attempts := r.attempts + 1 }))
        { req with attempts := req.attempts + 1 } [did] with
    | some b =>
        dsimp only
        obtain ⟨hbmem, hbav, hbex, hbmin⟩ :=
          find_best_driver_spec cfg _ _ [did] b hfb
        have hbne : b.id ≠ did := by simpa using hbex
        refine ⟨?_, ?_⟩
        · refine ⟨{ req with attempts := req.attempts + 1, status := RequestStatus.assigned, assigned_driver_id := some b.id }, ?_, rfl, ?_⟩
          · rw [getRequest_updateDriver,
              getRequest_updateRequest_self _ rid _ (by intro a; rfl),
              getRequest_updateRequest_self _ rid _ (by intro a; rfl), hreq]
            rfl
          · left
            refine ⟨b, rfl, rfl, hbmem, hbav, hbne, ?_, ?_⟩
            · intro d hd hs hdne
              exact hbmin d hd hs (by simpa using hdne)
            · have hsome : (getDriver w b.id).isSome :=
                List.find?_isSome.mpr ⟨b, hbmem, by simp⟩
              obtain ⟨d0, hd0⟩ := Option.isSome_iff_exists.mp hsome
              refine ⟨{ d0 with status := DriverStatus.onTrip, assigned_request_id := some rid }, ?_, rfl, rfl⟩
              rw [getDriver_updateDriver_self _ b.id _ (by intro a; rfl),
                getDriver_updateRequest]
              have hsame : getDriver (updateRequest w rid
                  (fun r => { r with attempts := r.attempts + 1 })) b.id
                  = getDriver w b.id := rfl
              rw [hsame, hd0]
              rfl
        · rw [getDriver_updateDriver_ne _ b.id did _ (by intro a; rfl)
            (fun hEq => hbne hEq.symm), getDriver_updateRequest]
          rfl
    | none =>
        dsimp only
        refine ⟨?_, ?_⟩
        · refine ⟨{ req with attempts := req.attempts + 1, status := RequestStatus.failed, assigned_driver_id := none }, ?_, rfl, ?_⟩
          · rw [getRequest_updateRequest_self _ rid _ (by intro a; rfl),
              getRequest_updateRequest_self _ rid _ (by intro a; rfl), hreq]
            rfl
          · right
            refine ⟨?_, rfl, rfl⟩
            intro d hd hcon
            exact find_best_driver_none cfg _ _ [did] hfb d hd
              ⟨hcon.1, by simpa using hcon.2⟩
        · rfl

/-- Witness for C10: rejecting request 1 on behalf of driver 1 in
`c10_world` re-dispatches it (to the only other Available driver). -/
theorem C10_witness :
    reject_request cfg0 c10_world 1 1
        = Except.ok (reject_request_internal cfg0 c10_world 1 1)
    ∧ (∃ req', getRequest (reject_request_internal cfg0 c10_world 1 1) 1 = some req'
        ∧ req'.attempts = c10_req.attempts + 1
        ∧ ((∃ b : Driver, req'.status = RequestStatus.assigned
              ∧ req'.assigned_driver_id = some b.id
              ∧ b ∈ c10_world.drivers ∧ b.status = DriverStatus.available ∧ b.id ≠ 1
              ∧ (∀ d ∈ c10_world.drivers, d.status = DriverStatus.available → d.id ≠ 1 →
                  calculate_driver_score cfg0 b c10_req ≤ calculate_driver_score cfg0 d c10_req)
              ∧ (∃ d', getDriver (reject_request_internal cfg0 c10_world 1 1) b.id = some d'
                  ∧ d'.status = DriverStatus.onTrip ∧ d'.assigned_request_id = some 1))
            ∨ ((∀ d ∈ c10_world.drivers, ¬(d.status = DriverStatus.available ∧ d.id ≠ 1))
              ∧ req'.status = RequestStatus.failed ∧ req'.assigned_driver_id = none)))
    ∧ getDriver (reject_request_internal cfg0 c10_world 1 1) 1 = getDriver c10_world 1 :=
  C10_manual_reject cfg0 c10_world 1 1 c10_req c10_drv rfl rfl rfl

/-- C4: every Dispatch result entry with status `"failed"` records exactly
as many attempts as there were Available drivers captured at call start (the
per-request candidate set); and with rejection probability 1 (an all-reject
oracle) every result entry the call produces is such a failed entry. -/
theorem C4_failed_attempts (cfg : Config) (oracle : Nat → Bool) (w : World) (k : Nat) :
    (∀ r ∈ (dispatch_ride_internal cfg oracle w k).2.2, r.status = "failed" →
        r.attempts = (w.drivers.filter (fun d => d.status = DriverStatus.available)).length)
    ∧ ((∀ n, oracle n = true) →
        ∀ r ∈ (dispatch_ride_internal cfg oracle w k).2.2, r.status = "failed") := by
  unfold dispatch_ride_internal
  by_cases hw : (w.requests.filter (fun r => r.status = RequestStatus.waiting)).isEmpty
  · simp [hw]
  · by_cases ha : (w.drivers.filter (fun d => d.status = DriverStatus.available)).isEmpty
    · simp [hw, ha]
    · simp only [hw, ha, Bool.false_eq_true, if_false]
      constructor
      · intro r hr hstatus
        have hall := dispatch_results_forall cfg oracle
          ((w.drivers.filter (fun d => d.status = DriverStatus.available)).map (fun d => d.id))
          (fun r => r.status = "failed" →
            r.attempts = (w.drivers.filter (fun d => d.status = DriverStatus.available)).length)
          (fun w' k' q r' hr' => by
            have := (process_request_results cfg oracle w' k' _ q r' hr').1
            intro hs
            rw [this hs, List.length_map])
          (w.requests.filter (fun r => r.status = RequestStatus.waiting)) w k []
          (by intro r' hr'; exact absurd hr' (List.not_mem_nil r'))
        exact hall r hr hstatus
      · intro hor r hr
        exact dispatch_results_forall cfg oracle
          ((w.drivers.filter (fun d => d.status = DriverStatus.available)).map (fun d => d.id))
          (fun r => r.status = "failed")
          (fun w' k' q r' hr' => (process_request_results cfg oracle w' k' _ q r' hr').2 hor)
          (w.requests.filter (fun r => r.status = RequestStatus.waiting)) w k []
          (by intro r' hr'; exact absurd hr' (List.not_mem_nil r')) r hr

/-- Witness for C4: on `doubleBooking_world` (one Available driver, two
Waiting requests) with the all-reject oracle, every result entry is failed,
and the failed entry for request 1 records one attempt — the size of the
call-start Available snapshot. -/
theorem C4_witness :
    ({ request_id := 1, assigned_driver_id := none, attempts := 1, status := "failed" }
        : ReqResult).attempts
      = (doubleBooking_world.drivers.filter
          (fun d => d.status = DriverStatus.available)).length
    ∧ ∀ r ∈ (dispatch_ride_internal cfg0 oracleReject doubleBooking_world 0).2.2,
        r.status = "failed" :=
  ⟨(C4_failed_attempts cfg0 oracleReject doubleBooking_world 0).1
      { request_id := 1, assigned_driver_id := none, attempts := 1, status := "failed" }
      (by with_unfolding_all decide) rfl,
   (C4_failed_attempts cfg0 oracleReject doubleBooking_world 0).2 (fun n => rfl)⟩

/-- Witness for C5, at speed 1 from `(0,0)` towards `(2,2)`. -/
theorem C5_witness :
    (0 : ℚ) < 1
    ∧ (calculate_manhattan_distance (move_towards_target 1 0 0 2 2).1
          (move_towards_target 1 0 0 2 2).2 2 2
        ≤ calculate_manhattan_distance 0 0 2 2
      ∧ ((0 : ℚ) ≤ 2 → (0 : ℚ) ≤ (move_towards_target 1 0 0 2 2).1
          ∧ (move_towards_target 1 0 0 2 2).1 ≤ 2)
      ∧ ((2 : ℚ) ≤ 0 → (2 : ℚ) ≤ (move_towards_target 1 0 0 2 2).1
          ∧ (move_towards_target 1 0 0 2 2).1 ≤ 0)
      ∧ ((0 : ℚ) ≤ 2 → (0 : ℚ) ≤ (move_towards_target 1 0 0 2 2).2
          ∧ (move_towards_target 1 0 0 2 2).2 ≤ 2)
      ∧ ((2 : ℚ) ≤ 0 → (2 : ℚ) ≤ (move_towards_target 1 0 0 2 2).2
          ∧ (move_towards_target 1 0 0 2 2).2 ≤ 0)) :=
  ⟨by norm_num, C5_move_never_overshoots 1 0 0 2 2 (by norm_num)⟩

/-- C1: the claim says no driver assigned (set OnTrip) for one waiting
request is later selected and assigned to another waiting request in the same
Dispatch call.  The code violates this: with a single Available driver at
`(0,0)` and two Waiting requests, every offer accepted, one Dispatch call
assigns driver 1 to request 1 and then again to request 2 — the per-request
copy of the call-start snapshot still contains the already-assigned driver,
whose status is never re-checked. -/
theorem C1_double_booking :
    doubleBooking_result.2.2 =
      [{ request_id := 1, assigned_driver_id := some 1, attempts := 0, status := "assigned" },
       { request_id := 2, assigned_driver_id := some 1, attempts := 0, status := "assigned" }] := by
  rfl

/-- C3: the claim says that after any Dispatch call every Assigned request's
driver is OnTrip with `assigned_request_id` equal to that request's id.  On
`doubleBooking_world` the call leaves request 1 Assigned with
`assigned_driver_id = some 1`, while driver 1's back-reference is
`assigned_request_id = some 2` — the symmetry is broken by double-booking. -/
theorem C3_symmetry_broken :
    (getRequest doubleBooking_result.1 1).map
        (fun r => (r.status, r.assigned_driver_id)) =
      some (RequestStatus.assigned, some 1)
    ∧ (getDriver doubleBooking_result.1 1).map
        (fun d => (d.status, d.assigned_request_id)) =
      some (DriverStatus.onTrip, some 2) := by
  exact ⟨rfl, rfl⟩

/-- C2 (counterexample): the claim says 4 Tick calls are needed to reach
`(2,2)` with `reached_pickup` emitted on the 4th tick.  In fact both axes
advance every tick, so the driver is at `(2,2)` after 2 ticks, the
`reached_pickup` event fires on the 2nd tick, and the 4th tick emits no
event at all. -/
theorem C2_counterexample :
    scenarioA_events 1 = [{ driver_id := 1, request_id := 1, event := "reached_pickup" }]
    ∧ (getDriver (scenarioA_after 2) 1).map (fun d => (d.x, d.y)) = some ((2 : ℚ), (2 : ℚ))
    ∧ scenarioA_events 3 = [] := by
  with_unfolding_all decide

/-- C2 (amended): with one Available driver at `(0,0)`, one Waiting request
with pickup `(2,2)` and dropoff `(8,8)`, rejection rate 0 and speed 1,
Dispatch assigns the driver with `attempts = 0`; exactly 2 Tick calls move
the driver to `(2,2)` with `reached_pickup` emitted on the 2nd tick (both
axes advance in the same tick), and `completed` is emitted 6 ticks after
that, on the 8th tick, with all intermediate ticks emitting nothing. -/
theorem C2_amended :
    (dispatch_ride_internal cfg0 oracleAccept scenarioA_world 0).2.2 =
      [{ request_id := 1, assigned_driver_id := some 1, attempts := 0, status := "assigned" }]
    ∧ scenarioA_events 0 = []
    ∧ scenarioA_events 1 = [{ driver_id := 1, request_id := 1, event := "reached_pickup" }]
    ∧ scenarioA_events 2 = []
    ∧ scenarioA_events 3 = []
    ∧ scenarioA_events 4 = []
    ∧ scenarioA_events 5 = []
    ∧ scenarioA_events 6 = []
    ∧ scenarioA_events 7 = [{ driver_id := 1, request_id := 1, event := "completed" }]
    ∧ (getRequest (scenarioA_after 8) 1).map (fun r => r.status) =
        some RequestStatus.completed := by
  with_unfolding_all decide

end RideDispatch
